import Mathlib

/-!
Shallow embedding of `src/src/rl_sar/scripts/convert_to_onnx.py`.

The script is a thin orchestration over external capabilities (the PyTorch
loader/runner, the ONNX exporter, the optional ONNX checker) and the file
system.  Those collaborators are modelled as an `Env` of oracle functions;
the orchestration logic itself (path derivation, step sequencing, the
try/except boundary, batch counting, CLI exit codes) is translated
faithfully from the Python source.  Each conversion returns, besides the
boolean the Python function returns, the observable trace of the run: the
printed log lines, the files written, the steps that were executed and the
export invocations made; `main` likewise returns its exit code, log and the
list of `convert` calls it issued.
-/

namespace ConvertToOnnx

/-! ## Python string primitives used by the script -/

/-- Characters of the replacement string `".onnx"`. -/
def onnxChars : List Char := ['.', 'o', 'n', 'n', 'x']

/-- Python `s.replace(".pt", ".onnx")` on the character list of `s`:
every non-overlapping occurrence of `".pt"` is replaced, scanning left to
right — not only a trailing extension. -/
def replacePtOnnx : List Char → List Char
  | c :: c2 :: c3 :: rest =>
    if c = '.' ∧ c2 = 'p' ∧ c3 = 't' then
      onnxChars ++ replacePtOnnx rest
    else
      c :: replacePtOnnx (c2 :: c3 :: rest)
  | c :: cs => c :: replacePtOnnx cs
  | [] => []

/-- Whether the character list contains the substring `".pt"`. -/
def containsPt : List Char → Bool
  | c :: c2 :: c3 :: rest =>
    if c = '.' ∧ c2 = 'p' ∧ c3 = 't' then true
    else containsPt (c2 :: c3 :: rest)
  | _ :: cs => containsPt cs
  | [] => false

/-- Python `model_path.replace('.pt', '.onnx')` (line 34 of the script). -/
def pyReplacePtOnnx (s : String) : String := String.mk (replacePtOnnx s.data)

/-- Python `s.endswith(suffix)`. -/
def pyEndsWith (s suffix : String) : Bool :=
  suffix.data.reverse.isPrefixOf s.data.reverse

/-- Python `s.startswith(pre)`. -/
def pyStartsWith (s pre : String) : Bool :=
  pre.data.isPrefixOf s.data

/-- Python `os.path.join(a, b)` for the cases the script exercises. -/
def joinPath (a b : String) : String :=
  if pyStartsWith b "/" then b
  else if a = "" then b
  else if pyEndsWith a "/" then a ++ b
  else a ++ "/" ++ b

/-! ## External collaborators and the observable outcome of a conversion -/

/-- The environment: file system plus the three opaque external
capabilities the spec names (loader/runner, exporter, verifier).  The
exporter is an external collaborator; it is modelled as atomic: on success
it produces the artifact at the requested path, on failure it produces
nothing.  `walk` is the `os.walk` enumeration of the batch policy
directory: a list of `(dirpath, filenames)` pairs. -/
structure Env where
  fileExists : String → Bool
  load : String → Except String Unit
  forward : String → Nat → Except String (List Nat)
  exportModel : String → Nat → String → Except String Unit
  onnxAvailable : Bool
  check : String → Except String Unit
  scriptDir : String
  walk : List (String × List String)

/-- The steps of the conversion procedure that leave a trace. -/
inductive Step where
  | load
  | forward
  | exportStep
  | verify
deriving DecidableEq

/-- The keyword configuration passed to `torch.onnx.export`
(lines 59–72 of the script). -/
structure ExportConfig where
  export_params : Bool
  opset_version : Nat
  do_constant_folding : Bool
  input_names : List String
  output_names : List String
  dynamic_axes : List (String × List (Nat × String))
deriving DecidableEq

/-- The one configuration the script ever uses: parameters embedded,
opset 11, constant folding on, tensors named `observations`/`actions`,
axis 0 of each declared as the variable `batch_size` dimension. -/
def fixedExportConfig : ExportConfig :=
  { export_params := true
    opset_version := 11
    do_constant_folding := true
    input_names := ["observations"]
    output_names := ["actions"]
    dynamic_axes := [("observations", [(0, "batch_size")]),
                     ("actions", [(0, "batch_size")])] }

/-- One invocation of the exporter. -/
structure ExportCall where
  modelPath : String
  inputSize : Nat
  outputPath : String
  config : ExportConfig
deriving DecidableEq

/-- Everything observable about one run of `convert_pytorch_to_onnx`:
the returned boolean, the printed lines, the files written, the steps
executed, and the exporter invocations. -/
structure ConvOutcome where
  succeeded : Bool
  log : List String
  writes : List String
  steps : List Step
  exportCalls : List ExportCall
deriving DecidableEq

/-- Output-path resolution (lines 33–34): an explicit `output_path` wins,
otherwise `model_path.replace('.pt', '.onnx')`. -/
def resolveOutputPath (output_path : Option String) (model_path : String) : String :=
  match output_path with
  | some p => p
  | none => pyReplacePtOnnx model_path

/-- `convert_pytorch_to_onnx(model_path, input_size, output_path)`
(lines 19–93).  The nested `match`es on the `Except`-valued capabilities
are the embedding of the `try/except` block: an `error` outcome of a step
is the exception the Python code catches at the function boundary, turned
into the failed result with the `"Error during conversion"` message; steps
after a failed step never run. -/
def convert (env : Env) (model_path : String) (input_size : Option Nat)
    (output_path : Option String) : ConvOutcome :=
  if env.fileExists model_path = false then
    { succeeded := false
      log := ["Error: Model file " ++ model_path ++ " not found"]
      writes := []
      steps := []
      exportCalls := [] }
  else
    let out := resolveOutputPath output_path model_path
    match env.load model_path with
    | Except.error e =>
      { succeeded := false
        log := ["Loading PyTorch model: " ++ model_path,
                "Error during conversion: " ++ e]
        writes := []
        steps := [Step.load]
        exportCalls := [] }
    | Except.ok _ =>
      let sizeLog : List String :=
        match input_size with
        | none => ["Warning: Input size not specified, using default: 48",
                   "If this fails, try specifying --input_size with one of: [45, 48, 51, 57, 87]"]
        | some _ => []
      let size := input_size.getD 48
      match env.forward model_path size with
      | Except.error e =>
        { succeeded := false
          log := ["Loading PyTorch model: " ++ model_path] ++ sizeLog ++
                 ["Error during conversion: " ++ e]
          writes := []
          steps := [Step.load, Step.forward]
          exportCalls := [] }
      | Except.ok _shape =>
        let call : ExportCall :=
          { modelPath := model_path, inputSize := size, outputPath := out
            config := fixedExportConfig }
        match env.exportModel model_path size out with
        | Except.error e =>
          { succeeded := false
            log := ["Loading PyTorch model: " ++ model_path] ++ sizeLog ++
                   ["Model test successful", "Exporting to ONNX: " ++ out,
                    "Error during conversion: " ++ e]
            writes := []
            steps := [Step.load, Step.forward, Step.exportStep]
            exportCalls := [call] }
        | Except.ok _ =>
          let verifyLog : List String :=
            if env.onnxAvailable then
              match env.check out with
              | Except.ok _ => ["ONNX model verification successful"]
              | Except.error e =>
                ["Warning: ONNX model verification failed: " ++ e,
                 "Model was still exported successfully"]
            else
              ["Warning: onnx package not available for verification",
               "You can install it with: pip install onnx"]
          { succeeded := true
            log := ["Loading PyTorch model: " ++ model_path] ++ sizeLog ++
                   ["Model test successful", "Exporting to ONNX: " ++ out,
                    "Successfully converted " ++ model_path ++ " to " ++ out] ++
                   verifyLog
            writes := [out]
            steps := [Step.load, Step.forward, Step.exportStep, Step.verify]
            exportCalls := [call] }

/-! ## Batch mode and the CLI entry point (`main`, lines 95–131) -/

/-- Result of a batch run: the two counters of the loop plus the list of
`convert` invocations made, each recorded as
`(model_path, input_size, output_path)`. -/
structure BatchResult where
  total : Nat
  succeeded : Nat
  calls : List (String × Option Nat × Option String)
deriving DecidableEq

/-- The files the batch loop converts: for each `(root, files)` pair of
the walk, the files whose name ends with `".pt"`, joined to their
directory (lines 115–118). -/
def matchingFiles : List (String × List String) → List String
  | [] => []
  | (root, files) :: rest =>
    (files.filter (fun f => pyEndsWith f ".pt")).map (fun f => joinPath root f) ++
      matchingFiles rest

/-- One iteration of the batch loop on counters `(total, succeeded)`
(lines 120–122): `total` is always incremented, `succeeded` only when the
single-file conversion returns `true`. -/
def batchStep (env : Env) (input_size : Option Nat) (acc : Nat × Nat)
    (p : String) : Nat × Nat :=
  (acc.1 + 1, if (convert env p input_size none).succeeded then acc.2 + 1 else acc.2)

/-- The batch conversion loop (lines 112–122): folds the counter update
over the discovered files; each file is converted with the shared
`input_size` and no explicit output path. -/
def convertBatch (env : Env) (input_size : Option Nat) : BatchResult :=
  let files := matchingFiles env.walk
  let ts := files.foldl (batchStep env input_size) (0, 0)
  { total := ts.1
    succeeded := ts.2
    calls := files.map (fun p => (p, input_size, (none : Option String))) }

/-- Parsed command-line arguments (lines 96–103). -/
structure Args where
  model_path : String
  input_size : Option Nat
  output_path : Option String
  batch_convert : Bool

/-- Everything observable about one run of `main`: the process exit code,
the lines it prints beyond those of the conversions, the `convert`
invocations it issues and, in batch mode, the final counter pair. -/
structure MainOutcome where
  exitCode : Nat
  log : List String
  convertCalls : List (String × Option Nat × Option String)
  summary : Option (Nat × Nat)
deriving DecidableEq

/-- `main()` (lines 95–131).  With `--batch_convert` the function returns
without calling `sys.exit`, so the process exits 0 whether or not the
policy directory exists; in single-file mode it exits `0` on success and
`1` on failure.  The batch branch never reads `args.output_path`. -/
def main (env : Env) (args : Args) : MainOutcome :=
  if args.batch_convert then
    let policy_dir := joinPath env.scriptDir "policy"
    if env.fileExists policy_dir = false then
      { exitCode := 0
        log := ["Error: Policy directory " ++ policy_dir ++ " not found"]
        convertCalls := []
        summary := none }
    else
      let b := convertBatch env args.input_size
      { exitCode := 0
        log := ["Batch conversion completed: " ++ toString b.succeeded ++ "/" ++
                toString b.total ++ " models converted successfully"]
        convertCalls := b.calls
        summary := some (b.total, b.succeeded) }
  else
    let r := convert env args.model_path args.input_size args.output_path
    { exitCode := if r.succeeded then 0 else 1
      log := r.log
      convertCalls := [(args.model_path, args.input_size, args.output_path)]
      summary := none }

/-! ## Concrete environments used by witnesses and counterexamples -/

/-- An environment in which every capability succeeds. -/
def okEnv : Env :=
  { fileExists := fun _ => true
    load := fun _ => Except.ok ()
    forward := fun _ _ => Except.ok [1, 12]
    exportModel := fun _ _ _ => Except.ok ()
    onnxAvailable := true
    check := fun _ => Except.ok ()
    scriptDir := "scripts"
    walk := [("scripts/policy", ["a.pt", "readme.md"]),
             ("scripts/policy/go2", ["b.pt"])] }

/-- An environment in which the loader rejects every file. -/
def loadFailEnv : Env :=
  { okEnv with load := fun _ => Except.error "corrupt archive" }

/-- An environment mirroring the spec's batch example: three matching
files, of which exactly one (`"scripts/policy/bad.pt"`) fails its forward
pass. -/
def batchEnv : Env :=
  { okEnv with
    walk := [("scripts/policy", ["a.pt", "bad.pt", "notes.txt"]),
             ("scripts/policy/go2", ["b.pt"])]
    forward := fun p _ =>
      if p = "scripts/policy/bad.pt" then Except.error "shape mismatch"
      else Except.ok [1, 12] }

/-! ## Helper lemmas -/

/-- A character list without the substring `".pt"` is unchanged by
`replacePtOnnx`. -/
theorem replacePtOnnx_eq_self : ∀ (l : List Char), containsPt l = false → replacePtOnnx l = l
  | [], _ => rfl
  | [c], _ => rfl
  | [c, c2], _ => rfl
  | c :: c2 :: c3 :: rest, h => by
    by_cases hc : c = '.' ∧ c2 = 'p' ∧ c3 = 't'
    · simp [containsPt, hc] at h
    · have h' : containsPt (c2 :: c3 :: rest) = false := by
        simpa [containsPt, hc] using h
      simp [replacePtOnnx, hc, replacePtOnnx_eq_self (c2 :: c3 :: rest) h']

/-- `convert` writes the artifact at the resolved output path exactly when
it succeeds, and nothing otherwise. -/
theorem convert_writes_eq (env : Env) (p : String) (isz : Option Nat) (outp : Option String) :
    (convert env p isz outp).writes =
      (if (convert env p isz outp).succeeded then [resolveOutputPath outp p] else []) := by
  unfold convert
  cases env.fileExists p <;> simp
  · cases env.load p <;> simp
    cases env.forward p (isz.getD 48) <;> simp
    cases env.exportModel p (isz.getD 48) (resolveOutputPath outp p) <;> simp

/-- Every exporter invocation of a `convert` run targets the resolved
output path, uses the resolved input size and the fixed configuration. -/
theorem mem_exportCalls (env : Env) (p : String) (isz : Option Nat) (outp : Option String)
    (c : ExportCall) (hc : c ∈ (convert env p isz outp).exportCalls) :
    c = { modelPath := p, inputSize := isz.getD 48,
          outputPath := resolveOutputPath outp p, config := fixedExportConfig } := by
  unfold convert at hc
  revert hc
  cases env.fileExists p <;> simp
  cases env.load p <;> simp
  cases env.forward p (isz.getD 48) <;> simp
  cases env.exportModel p (isz.getD 48) (resolveOutputPath outp p) <;> simp

/-- Closed form of the batch counter fold: `total` grows by the list
length, `succeeded` by the number of successful conversions. -/
theorem foldl_batchStep (env : Env) (isz : Option Nat) :
    ∀ (l : List String) (t s : Nat),
      l.foldl (batchStep env isz) (t, s) =
        (t + l.length,
         s + (l.filter (fun p => (convert env p isz none).succeeded)).length)
  | [], t, s => by simp
  | p :: ps, t, s => by
    cases h : (convert env p isz none).succeeded <;>
      simp [batchStep, h, foldl_batchStep env isz ps] <;> omega

/-! ## Claim theorems -/

/-- C1, counterexample: the claim says the derived output path changes
only the `.pt` extension.  For the existing source `"a.pt.pt"` the code
derives (and writes to) `"a.onnx.onnx"`, which differs from the
extension-only replacement `"a.pt.onnx"`: the derivation rewrites every
occurrence of `".pt"`, not just the trailing extension. -/
theorem derived_path_extension_only_cex :
    (convert okEnv "a.pt.pt" none none).writes = ["a.onnx.onnx"] ∧
    (convert okEnv "a.pt.pt" none none).writes ≠ ["a.pt.onnx"] ∧
    ("a.onnx.onnx" : String) ≠ "a.pt.onnx" := by
  refine ⟨rfl, ?_, ?_⟩ <;> decide

/-- C1, amended: with `output_path` absent, every exporter invocation of
`convert` targets the path obtained from `source_path` by replacing every
occurrence of the substring `".pt"` with `".onnx"`; when `".pt"` occurs
exactly once, as the extension, this is exactly the extension swap, and in
particular `"policy/go2/policy.pt"` derives `"policy/go2/policy.onnx"`. -/
theorem derived_path_replaces_every_pt_occurrence :
    (∀ (env : Env) (p : String) (isz : Option Nat) (c : ExportCall),
        c ∈ (convert env p isz none).exportCalls → c.outputPath = pyReplacePtOnnx p) ∧
    pyReplacePtOnnx "policy/go2/policy.pt" = "policy/go2/policy.onnx" := by
  constructor
  · intro env p isz c hc
    rw [mem_exportCalls env p isz none c hc]
    rfl
  · decide

/-- Witness for C1 (amended): the export call made for
`"policy/go2/policy.pt"` in the all-success environment targets
`"policy/go2/policy.onnx"`. -/
theorem derived_path_replaces_every_pt_occurrence_witness :
    ({ modelPath := "policy/go2/policy.pt", inputSize := 48,
       outputPath := "policy/go2/policy.onnx",
       config := fixedExportConfig } : ExportCall).outputPath =
      pyReplacePtOnnx "policy/go2/policy.pt" :=
  derived_path_replaces_every_pt_occurrence.1 okEnv "policy/go2/policy.pt" none _ (by decide)

/-- C2: `convert` writes exactly one file — the artifact at the resolved
output path — when it returns `succeeded = true`, and writes nothing at
all when it returns `succeeded = false` (in particular after an exporter
failure no output file is retained). -/
theorem writes_exactly_on_success (env : Env) (p : String) (isz : Option Nat)
    (outp : Option String) :
    (convert env p isz outp).writes =
      (if (convert env p isz outp).succeeded then [resolveOutputPath outp p] else []) :=
  convert_writes_eq env p isz outp

/-- C5: when the source file does not exist, `convert` fails with the
`"not found"` message, executes no step (so the loader is never invoked),
writes nothing and never calls the exporter. -/
theorem missing_source_fails_without_load (env : Env) (p : String) (isz : Option Nat)
    (outp : Option String) (h : env.fileExists p = false) :
    (convert env p isz outp).succeeded = false ∧
    ("Error: Model file " ++ p ++ " not found") ∈ (convert env p isz outp).log ∧
    (convert env p isz outp).writes = [] ∧
    (convert env p isz outp).steps = [] ∧
    (convert env p isz outp).exportCalls = [] := by
  simp [convert, h]

/-- An environment in which no path exists. -/
def missingEnv : Env := { okEnv with fileExists := fun _ => false }

/-- Witness for C5 at the concrete missing source `"ghost.pt"`. -/
theorem missing_source_fails_without_load_witness :
    (convert missingEnv "ghost.pt" none none).succeeded = false ∧
    ("Error: Model file " ++ "ghost.pt" ++ " not found") ∈ (convert missingEnv "ghost.pt" none none).log ∧
    (convert missingEnv "ghost.pt" none none).writes = [] ∧
    (convert missingEnv "ghost.pt" none none).steps = [] ∧
    (convert missingEnv "ghost.pt" none none).exportCalls = [] :=
  missing_source_fails_without_load missingEnv "ghost.pt" none none rfl

/-- C10: for a source path containing no occurrence of the substring
`".pt"` and no explicit output path, the derived output path is the source
path itself, so a successful conversion writes the exported artifact over
the original source model file. -/
theorem no_pt_occurrence_overwrites_source (env : Env) (p : String) (isz : Option Nat)
    (h : containsPt p.data = false) :
    resolveOutputPath none p = p ∧
    ((convert env p isz none).succeeded = true → (convert env p isz none).writes = [p]) := by
  have hp : pyReplacePtOnnx p = p := by
    unfold pyReplacePtOnnx
    rw [replacePtOnnx_eq_self p.data h]
  constructor
  · simpa [resolveOutputPath] using hp
  · intro hs
    rw [convert_writes_eq, hs]
    simp [resolveOutputPath, hp]

/-- Witness for C10: converting the existing source `"model.bin"`
succeeds and writes over `"model.bin"` itself. -/
theorem no_pt_occurrence_overwrites_source_witness :
    (convert okEnv "model.bin" none none).writes = ["model.bin"] :=
  (no_pt_occurrence_overwrites_source okEnv "model.bin" none (by decide)).2 rfl

/-- An environment whose export pipeline succeeds but whose verifier
capability is absent and whose checker would fail anyway. -/
def noVerifyEnv : Env :=
  { okEnv with onnxAvailable := false, check := fun _ => Except.error "checker crash" }

/-- C3: once load, input synthesis, forward pass and export succeed,
`convert` returns `succeeded = true` for every verifier availability flag
`b` and every checker behaviour `chk` — the post-export verification step
never flips a success to a failure. -/
theorem verification_never_flips_success (env : Env) (p : String) (isz : Option Nat)
    (outp : Option String) (b : Bool) (chk : String → Except String Unit) (shape : List Nat)
    (h1 : env.fileExists p = true)
    (h2 : env.load p = Except.ok ())
    (h3 : env.forward p (isz.getD 48) = Except.ok shape)
    (h4 : env.exportModel p (isz.getD 48) (resolveOutputPath outp p) = Except.ok ()) :
    (convert { env with onnxAvailable := b, check := chk } p isz outp).succeeded = true := by
  simp [convert, h1, h2, h3, h4]

/-- Witness for C3: with the verifier package unavailable and a crashing
checker, an otherwise-successful conversion still reports success. -/
theorem verification_never_flips_success_witness :
    (convert noVerifyEnv "a.pt" none none).succeeded = true :=
  verification_never_flips_success okEnv "a.pt" none none false
    (fun _ => Except.error "checker crash") [1, 12] rfl rfl rfl rfl

/-- C4: the batch summary counts exactly the discovered matching files
(`total`) and the successful single-file conversions (`succeeded`);
`0 ≤ succeeded ≤ total`, and the invariant `succeeded ≤ total` holds after
every prefix of the run, so an individual failure never aborts the batch —
it only leaves `succeeded` unincremented. -/
theorem batch_summary_counts (env : Env) (isz : Option Nat) :
    (convertBatch env isz).total = (matchingFiles env.walk).length ∧
    (convertBatch env isz).succeeded =
      ((matchingFiles env.walk).filter
        (fun p => (convert env p isz none).succeeded)).length ∧
    (convertBatch env isz).succeeded ≤ (convertBatch env isz).total ∧
    (∀ l1 l2, matchingFiles env.walk = l1 ++ l2 →
      (l1.foldl (batchStep env isz) (0, 0)).2 ≤ (l1.foldl (batchStep env isz) (0, 0)).1) := by
  have key := foldl_batchStep env isz (matchingFiles env.walk) 0 0
  refine ⟨?_, ?_, ?_, ?_⟩
  · show (List.foldl (batchStep env isz) (0, 0) (matchingFiles env.walk)).1 = _
    rw [key]
    simp
  · show (List.foldl (batchStep env isz) (0, 0) (matchingFiles env.walk)).2 = _
    rw [key]
    simp
  · show (List.foldl (batchStep env isz) (0, 0) (matchingFiles env.walk)).2 ≤
      (List.foldl (batchStep env isz) (0, 0) (matchingFiles env.walk)).1
    rw [key]
    simpa using List.length_filter_le _ _
  · intro l1 l2 _
    rw [foldl_batchStep env isz l1 0 0]
    simpa using List.length_filter_le _ l1

/-- Witness for C4: the spec's example — three matching files, one of
which fails its forward pass — yields `total = 3` and `succeeded = 2`,
and the prefix invariant holds after the first file. -/
theorem batch_summary_counts_witness :
    (convertBatch batchEnv none).total = 3 ∧
    (convertBatch batchEnv none).succeeded = 2 ∧
    (convertBatch batchEnv none).succeeded ≤ (convertBatch batchEnv none).total ∧
    ((["scripts/policy/a.pt"].foldl (batchStep batchEnv none) (0, 0)).2 ≤
      (["scripts/policy/a.pt"].foldl (batchStep batchEnv none) (0, 0)).1) :=
  ⟨by decide, by decide, (batch_summary_counts batchEnv none).2.2.1,
   (batch_summary_counts batchEnv none).2.2.2 ["scripts/policy/a.pt"]
     ["scripts/policy/bad.pt", "scripts/policy/go2/b.pt"] (by decide)⟩

/-- An environment whose forward pass always fails on a shape check. -/
def forwardFailEnv : Env := { okEnv with forward := fun _ _ => Except.error "shape mismatch" }

/-- An environment whose exporter always fails. -/
def exportFailEnv : Env := { okEnv with exportModel := fun _ _ _ => Except.error "unsupported operator" }

/-- An environment whose post-export checker always fails. -/
def checkFailEnv : Env := { okEnv with check := fun _ => Except.error "bad schema" }

/-- C6: every step failure is caught at the single-file conversion
boundary: a load, forward-pass or export error yields a failed result
carrying the `"Error during conversion"` message, the later steps are not
executed (hence no export invocation after a load or forward failure, no
file written), and a verifier error after a successful export is likewise
caught, leaving the result successful.  Nothing escapes `convert` — it
always returns a `ConvOutcome`. -/
theorem errors_caught_at_conversion_boundary (env : Env) (p : String) (isz : Option Nat)
    (outp : Option String) (h0 : env.fileExists p = true) :
    (∀ e, env.load p = Except.error e →
      (convert env p isz outp).succeeded = false ∧
      ("Error during conversion: " ++ e) ∈ (convert env p isz outp).log ∧
      (convert env p isz outp).steps = [Step.load] ∧
      (convert env p isz outp).exportCalls = [] ∧
      (convert env p isz outp).writes = []) ∧
    (env.load p = Except.ok () →
      ∀ e, env.forward p (isz.getD 48) = Except.error e →
      (convert env p isz outp).succeeded = false ∧
      ("Error during conversion: " ++ e) ∈ (convert env p isz outp).log ∧
      (convert env p isz outp).steps = [Step.load, Step.forward] ∧
      (convert env p isz outp).exportCalls = [] ∧
      (convert env p isz outp).writes = []) ∧
    (env.load p = Except.ok () →
      ∀ shape, env.forward p (isz.getD 48) = Except.ok shape →
      ∀ e, env.exportModel p (isz.getD 48) (resolveOutputPath outp p) = Except.error e →
      (convert env p isz outp).succeeded = false ∧
      ("Error during conversion: " ++ e) ∈ (convert env p isz outp).log ∧
      (convert env p isz outp).steps = [Step.load, Step.forward, Step.exportStep] ∧
      (convert env p isz outp).writes = []) ∧
    (env.load p = Except.ok () →
      ∀ shape, env.forward p (isz.getD 48) = Except.ok shape →
      env.exportModel p (isz.getD 48) (resolveOutputPath outp p) = Except.ok () →
      env.onnxAvailable = true →
      ∀ e, env.check (resolveOutputPath outp p) = Except.error e →
      (convert env p isz outp).succeeded = true ∧
      ("Warning: ONNX model verification failed: " ++ e) ∈ (convert env p isz outp).log) := by
  refine ⟨?_, ?_, ?_, ?_⟩
  · intro e he
    simp [convert, h0, he]
  · intro hl e he
    cases isz <;> simp only [Option.getD_none, Option.getD_some] at he <;>
      simp [convert, h0, hl, he]
  · intro hl shape hf e he
    cases isz <;> simp only [Option.getD_none, Option.getD_some] at hf he <;>
      simp [convert, h0, hl, hf, he]
  · intro hl shape hf he hav e hc
    cases isz <;> simp only [Option.getD_none, Option.getD_some] at hf he <;>
      simp [convert, h0, hl, hf, he, hav, hc]

/-- Witness for C6, one concrete run per failing step: a load failure, a
forward failure, an export failure, and a verifier failure after a
successful export. -/
theorem errors_caught_at_conversion_boundary_witness :
    (convert loadFailEnv "a.pt" none none).succeeded = false ∧
    (convert forwardFailEnv "a.pt" none none).steps = [Step.load, Step.forward] ∧
    (convert exportFailEnv "a.pt" none none).steps = [Step.load, Step.forward, Step.exportStep] ∧
    (convert checkFailEnv "a.pt" none none).succeeded = true :=
  ⟨((errors_caught_at_conversion_boundary loadFailEnv "a.pt" none none rfl).1
      "corrupt archive" rfl).1,
   ((errors_caught_at_conversion_boundary forwardFailEnv "a.pt" none none rfl).2.1
      rfl "shape mismatch" rfl).2.2.1,
   ((errors_caught_at_conversion_boundary exportFailEnv "a.pt" none none rfl).2.2.1
      rfl [1, 12] rfl "unsupported operator" rfl).2.2.1,
   ((errors_caught_at_conversion_boundary checkFailEnv "a.pt" none none rfl).2.2.2
      rfl [1, 12] rfl rfl rfl "bad schema" rfl).1⟩

/-- C7: in batch mode (with the policy directory present), `main` invokes
the single-file conversion exactly once per discovered `.pt` file — the
call list is precisely the matching files, each paired with the shared
`input_size` and `output_path` unset — and the outcome is identical for
every value of the `--output_path` argument, which batch mode silently
ignores. -/
theorem batch_visits_matching_files_once (env : Env) (args : Args)
    (hb : args.batch_convert = true)
    (hd : env.fileExists (joinPath env.scriptDir "policy") = true) :
    (main env args).convertCalls =
      (matchingFiles env.walk).map (fun p => (p, args.input_size, (none : Option String))) ∧
    (∀ p, (((main env args).convertCalls).map (fun c => c.1)).count p =
      (matchingFiles env.walk).count p) ∧
    (∀ o, main env { args with output_path := o } = main env args) := by
  refine ⟨?_, ?_, ?_⟩
  · simp [main, hb, hd, convertBatch]
  · intro p
    have hmap : ((fun c : String × Option Nat × Option String => c.1) ∘
        fun p : String => (p, args.input_size, (none : Option String))) = fun p => p := rfl
    simp [main, hb, hd, convertBatch, List.map_map, hmap]
  · intro o
    simp [main, hb]

/-- Single-file argument vector used by the CLI witnesses. -/
def argsSingle : Args :=
  { model_path := "a.pt", input_size := none, output_path := none, batch_convert := false }

/-- Batch-mode argument vector used by the CLI witnesses. -/
def argsBatch : Args := { argsSingle with batch_convert := true }

/-- Witness for C7 in the all-success environment: the batch call list is
the two discovered `.pt` files, each visited once, and an explicit
`--output_path` changes nothing. -/
theorem batch_visits_matching_files_once_witness :
    (main okEnv argsBatch).convertCalls =
      (matchingFiles okEnv.walk).map (fun p => (p, (none : Option Nat), (none : Option String))) ∧
    ((((main okEnv argsBatch).convertCalls).map (fun c => c.1)).count "scripts/policy/a.pt" =
      (matchingFiles okEnv.walk).count "scripts/policy/a.pt") ∧
    main okEnv { argsBatch with output_path := some "ignored.onnx" } = main okEnv argsBatch :=
  ⟨(batch_visits_matching_files_once okEnv argsBatch rfl rfl).1,
   (batch_visits_matching_files_once okEnv argsBatch rfl rfl).2.1 "scripts/policy/a.pt",
   (batch_visits_matching_files_once okEnv argsBatch rfl rfl).2.2 (some "ignored.onnx")⟩

/-- C8: single-file mode exits `0` exactly when the conversion succeeded
and `1` otherwise; batch mode exits `0` whether or not the policy
directory exists, and when it exists `main` prints the
`succeeded/total` summary line after processing. -/
theorem cli_exit_codes (env : Env) (args : Args) :
    (args.batch_convert = false →
      (main env args).exitCode =
        (if (convert env args.model_path args.input_size args.output_path).succeeded
          then 0 else 1)) ∧
    (args.batch_convert = true → (main env args).exitCode = 0) ∧
    (args.batch_convert = true →
      env.fileExists (joinPath env.scriptDir "policy") = true →
      ("Batch conversion completed: " ++ toString (convertBatch env args.input_size).succeeded ++
        "/" ++ toString (convertBatch env args.input_size).total ++
        " models converted successfully") ∈ (main env args).log) := by
  refine ⟨?_, ?_, ?_⟩
  · intro hb
    simp [main, hb]
  · intro hb
    cases h : env.fileExists (joinPath env.scriptDir "policy") <;> simp [main, hb, h]
  · intro hb hd
    simp [main, hb, hd]

/-- Witness for C8: concrete single-file and batch runs in the
all-success environment. -/
theorem cli_exit_codes_witness :
    ((main okEnv argsSingle).exitCode =
      (if (convert okEnv argsSingle.model_path argsSingle.input_size argsSingle.output_path).succeeded
        then 0 else 1)) ∧
    (main okEnv argsBatch).exitCode = 0 ∧
    ("Batch conversion completed: " ++ toString (convertBatch okEnv argsBatch.input_size).succeeded ++
      "/" ++ toString (convertBatch okEnv argsBatch.input_size).total ++
      " models converted successfully") ∈ (main okEnv argsBatch).log :=
  ⟨(cli_exit_codes okEnv argsSingle).1 rfl,
   (cli_exit_codes okEnv argsBatch).2.1 rfl,
   (cli_exit_codes okEnv argsBatch).2.2 rfl rfl⟩

/-- C9: `convert` is a pure function of its inputs, so a repeat invocation
with identical inputs yields the identical outcome, and every exporter
invocation it ever makes uses the one fixed configuration: parameters
embedded, opset version 11, constant folding enabled, input tensor
`observations`, output tensor `actions`, and axis 0 of both declared as
the variable `batch_size` dimension, targeting the resolved output
path. -/
theorem export_uses_fixed_config (env : Env) (p : String) (isz : Option Nat)
    (outp : Option String) :
    convert env p isz outp = convert env p isz outp ∧
    (∀ c ∈ (convert env p isz outp).exportCalls,
      c.config = fixedExportConfig ∧
      c.config.export_params = true ∧
      c.config.opset_version = 11 ∧
      c.config.do_constant_folding = true ∧
      c.config.input_names = ["observations"] ∧
      c.config.output_names = ["actions"] ∧
      c.config.dynamic_axes = [("observations", [(0, "batch_size")]),
                               ("actions", [(0, "batch_size")])] ∧
      c.outputPath = resolveOutputPath outp p) := by
  refine ⟨rfl, ?_⟩
  intro c hc
  rw [mem_exportCalls env p isz outp c hc]
  exact ⟨rfl, rfl, rfl, rfl, rfl, rfl, rfl, rfl⟩

/-- Witness for C9: the export call of a concrete successful run carries
the fixed configuration. -/
theorem export_uses_fixed_config_witness :
    ({ modelPath := "a.pt", inputSize := 48, outputPath := "a.onnx",
       config := fixedExportConfig } : ExportCall).config = fixedExportConfig :=
  ((export_uses_fixed_config okEnv "a.pt" none none).2 _ (by decide)).1

end ConvertToOnnx
